import Mathlib

/-!
Verification of the Medical-Diagnosis-Assistant backend
(`backend/models/diagnosis.py` and `backend/app.py`) against its
natural-language specification.

The Python source is shallowly embedded: pure helpers become Lean
functions over `String` / `List Char`; the retry loop of
`analyze_symptoms` becomes a fuel-indexed recursion driven by an oracle
`Nat → ApiAttempt` describing the outcome of each external-service
attempt; Python exceptions become `Except String` values; the
`time.sleep(retry_delay)` calls are logged in a list of delays.
-/

/-! ## String primitives modelling Python's str operations -/

/-- Python `str.lower()` (ASCII case folding, which covers every string
appearing in the source's tables). -/
def pyLower (s : String) : String := ⟨s.data.map Char.toLower⟩

/-- Is `needle` a leading segment of `hay`?  Helper for the Python `in`
substring test. -/
def startsWithChk : List Char → List Char → Bool
  | [], _ => true
  | _ :: _, [] => false
  | a :: as, b :: bs => a == b && startsWithChk as bs

/-- Does `needle` occur contiguously anywhere in `hay`? -/
def containsChk : List Char → List Char → Bool
  | needle, [] => startsWithChk needle []
  | needle, b :: bs => startsWithChk needle (b :: bs) || containsChk needle bs

/-- Python `needle in hay` substring containment. -/
def sContains (hay needle : String) : Bool := containsChk needle.data hay.data

/-- Python `str.replace('_', ' ')`. -/
def pyReplaceUnderscore (s : String) : String :=
  ⟨s.data.map (fun c => if c == '_' then ' ' else c)⟩

/-- Worker for Python `str.title()`: the Bool records whether the
previous character was alphabetic. -/
def titleChars : Bool → List Char → List Char
  | _, [] => []
  | prevAlpha, c :: cs =>
    if c.isAlpha then
      (if prevAlpha then c.toLower else c.toUpper) :: titleChars true cs
    else
      c :: titleChars false cs

/-- Python `str.title()`. -/
def pyTitle (s : String) : String := ⟨titleChars false s.data⟩

/-- Whitespace stripped by Python `int(...)` around a numeric literal. -/
def isSpaceChar (c : Char) : Bool := c == ' ' || c == '\t' || c == '\n' || c == '\r'

/-- Value of a digit string. -/
def digitsVal (cs : List Char) : Nat := cs.foldl (fun n c => 10 * n + (c.toNat - 48)) 0

/-- A nonempty all-digit string parses; anything else fails. -/
def readDigits (cs : List Char) : Option Nat :=
  if cs ≠ [] && cs.all (fun c => c.isDigit) then some (digitsVal cs) else none

/-- Python `int(s)` on a string: strip surrounding whitespace, optional
sign, digits; `none` models the `ValueError` raised on anything else. -/
def pyInt (s : String) : Option Int :=
  let cs := List.reverse (List.dropWhile isSpaceChar
    (List.reverse (List.dropWhile isSpaceChar s.data)))
  match cs with
  | '+' :: rest => (readDigits rest).map (fun n => (n : Int))
  | '-' :: rest => (readDigits rest).map (fun n => -(n : Int))
  | rest => (readDigits rest).map (fun n => (n : Int))

/-- Python `int(x)` where `x` is an optional string; `int(None)` raises
(`TypeError`), modelled as `none`. -/
def pyIntOfAge (age : Option String) : Option Int := age.bind pyInt

/-! ## Data model -/

/-- The `patient_info` mapping: each key may be absent (`none` models an
absent key, whose `.get` yields Python `None`). -/
structure PatientInfo where
  age : Option String
  gender : Option String
  medical_history : Option String
deriving DecidableEq, Repr

/-- The six-field dictionary returned by `analyze_medical_history`. -/
structure HistoryAnalysis where
  summary : String
  risk_factors : String
  complications : String
  recommended_tests : String
  precautions : String
  monitoring : String
deriving DecidableEq, Repr

/-- The `recommendations` sub-dictionary of the model-augmented result. -/
structure Recommendations where
  diet : String
  exercise : String
  stress : String
deriving DecidableEq, Repr

/-- The dictionary returned by `analyze_symptoms`.  `none` in
`history_analysis` / `recommendations` models an absent key (the
fallback result of `generate_detailed_analysis` omits both). -/
structure Report where
  analysis : String
  symptoms_analyzed : List String
  patient_info_used : PatientInfo
  history_analysis : Option HistoryAnalysis
  recommendations : Option Recommendations
deriving DecidableEq, Repr

/-! ## History classification (diagnosis.py lines 158-257) -/

/-- The `conditions` dict of `analyze_medical_history`, in its Python
insertion order. -/
def conditionsTable : List (String × List String) :=
  [("diabetes", ["diabetes", "diabetic", "blood sugar", "insulin"]),
   ("hypertension", ["hypertension", "high blood pressure", "hbp"]),
   ("heart_disease", ["heart disease", "cardiac", "heart attack", "angina"]),
   ("respiratory", ["asthma", "copd", "bronchitis", "pneumonia"]),
   ("arthritis", ["arthritis", "joint pain", "rheumatoid", "osteoarthritis"]),
   ("mental_health", ["depression", "anxiety", "bipolar", "schizophrenia"]),
   ("allergies", ["allergies", "allergic", "anaphylaxis"]),
   ("cancer", ["cancer", "tumor", "malignancy", "oncology"])]

/-- The `detected_conditions` loop of `analyze_medical_history`
(lines 182-185): a condition is kept when any of its keywords occurs in
the lower-cased history text. -/
def detected_conditions (history : String) : List String :=
  (conditionsTable.filter
    (fun ck => ck.2.any (fun kw => sContains (pyLower history) kw))).map (fun ck => ck.1)

/-- `generate_history_summary` (lines 199-207). -/
def generate_history_summary (conditions : List String) : String :=
  if conditions = [] then "No specific medical conditions detected in the provided history."
  else conditions.foldl
    (fun acc c => acc ++ "- " ++ pyTitle (pyReplaceUnderscore c) ++ "\n")
    "Detected medical conditions:\n"

/-- `generate_risk_factors` (lines 209-217). -/
def generate_risk_factors (conditions : List String) : String :=
  if conditions = [] then "Standard risk factors based on age and gender apply."
  else conditions.foldl
    (fun acc c => acc ++ "- " ++ pyTitle (pyReplaceUnderscore c) ++ "-related complications\n")
    "Additional risk factors based on medical history:\n"

/-- `generate_complications` (lines 219-227). -/
def generate_complications (conditions : List String) : String :=
  if conditions = [] then "Standard complication monitoring recommended."
  else conditions.foldl
    (fun acc c => acc ++ "- " ++ pyTitle (pyReplaceUnderscore c) ++ "-related complications\n")
    "Potential complications to monitor:\n"

/-- `generate_recommended_tests` (lines 229-237). -/
def generate_recommended_tests (conditions : List String) : String :=
  if conditions = [] then "Standard screening tests recommended."
  else conditions.foldl
    (fun acc c => acc ++ "- " ++ pyTitle (pyReplaceUnderscore c) ++ "-specific monitoring\n")
    "Additional tests recommended based on medical history:\n"

/-- `generate_precautions` (lines 239-247). -/
def generate_precautions (conditions : List String) : String :=
  if conditions = [] then "Standard precautions recommended."
  else conditions.foldl
    (fun acc c => acc ++ "- " ++ pyTitle (pyReplaceUnderscore c) ++ "-specific precautions\n")
    "Additional precautions based on medical history:\n"

/-- `generate_monitoring_plan` (lines 249-257). -/
def generate_monitoring_plan (conditions : List String) : String :=
  if conditions = [] then "Standard monitoring parameters recommended."
  else conditions.foldl
    (fun acc c => acc ++ "- " ++ pyTitle (pyReplaceUnderscore c) ++ "-specific monitoring\n")
    "Additional monitoring parameters based on medical history:\n"

/-- The canned dictionary returned by `analyze_medical_history` when no
history is supplied (lines 161-168). -/
def noHistoryAnalysis : HistoryAnalysis :=
  { summary := "No medical history provided. Please provide medical history for better analysis.",
    risk_factors := "Unable to assess risk factors without medical history.",
    complications := "Unable to assess potential complications without medical history.",
    recommended_tests := "Standard screening tests recommended based on age and gender.",
    precautions := "General precautions recommended. Specific precautions require medical history.",
    monitoring := "Standard monitoring parameters recommended." }

/-- `analyze_medical_history` (lines 158-197). -/
def analyze_medical_history (history : String) : HistoryAnalysis :=
  if history = "" ∨ pyLower history = "not provided" then noHistoryAnalysis
  else
    { summary := generate_history_summary (detected_conditions history),
      risk_factors := generate_risk_factors (detected_conditions history),
      complications := generate_complications (detected_conditions history),
      recommended_tests := generate_recommended_tests (detected_conditions history),
      precautions := generate_precautions (detected_conditions history),
      monitoring := generate_monitoring_plan (detected_conditions history) }

/-- The tri-state classification boundary named by the spec, as realized
by the branch structure of `analyze_medical_history`: the sentinel guard
of line 160 versus an empty or nonempty `detected_conditions` list. -/
inductive HistoryClass where
  | noHistoryProvided : HistoryClass
  | noMatches : HistoryClass
  | matched : List String → HistoryClass
deriving DecidableEq, Repr

/-- Which branch of `analyze_medical_history` a history text takes. -/
def classifyHistory (history : String) : HistoryClass :=
  if history = "" ∨ pyLower history = "not provided" then HistoryClass.noHistoryProvided
  else
    match detected_conditions history with
    | [] => HistoryClass.noMatches
    | c :: cs => HistoryClass.matched (c :: cs)

/-! ## Rule-based section generators (diagnosis.py lines 259-387) -/

/-- `get_diet_recommendations` (lines 259-261): a fixed string. -/
def get_diet_recommendations (_symptoms : List String) (_p : PatientInfo) : String :=
  "Balanced diet with emphasis on whole foods, adequate hydration, and appropriate portion sizes"

/-- `get_exercise_recommendations` (lines 263-265). -/
def get_exercise_recommendations (_symptoms : List String) (_p : PatientInfo) : String :=
  "Regular moderate exercise as tolerated, with appropriate rest periods and gradual progression"

/-- `get_stress_management` (lines 267-269). -/
def get_stress_management (_symptoms : List String) (_p : PatientInfo) : String :=
  "Regular relaxation techniques, adequate sleep, and stress-reduction activities"

/-- `get_age_risk_factors` (lines 328-339): `int(age)` under a
`try`/`except` whose handler returns the cannot-be-determined text. -/
def get_age_risk_factors (age : Option String) : String :=
  match pyIntOfAge age with
  | some n =>
    if n < 18 then "Pediatric considerations, developmental factors, growth monitoring"
    else if n < 65 then "Adult risk factors, lifestyle-related conditions, occupational health"
    else "Geriatric considerations, age-related conditions, polypharmacy risks"
  | none => "Age-specific risk factors cannot be determined"

/-- `get_gender_considerations` (lines 341-349).  The source calls
`gender.lower()` unguarded, so a missing gender key (Python `None`)
raises `AttributeError`; that exception is the `Except.error` case. -/
def get_gender_considerations (gender : Option String) : Except String String :=
  match gender with
  | none => Except.error "NoneType object has no attribute lower"
  | some g =>
    if pyLower g = "male" then
      Except.ok "Male-specific conditions, hormonal factors, prostate health"
    else if pyLower g = "female" then
      Except.ok "Female-specific conditions, hormonal factors, reproductive health"
    else Except.ok "General health considerations"

/-- `get_history_impact` (lines 351-355): total, `if not history` also
absorbs Python `None`. -/
def get_history_impact (history : Option String) : String :=
  match history with
  | none => "Medical history impact cannot be assessed"
  | some h =>
    if h = "" ∨ pyLower h = "not provided" then "Medical history impact cannot be assessed"
    else "Consider impact of existing conditions on current symptoms"

/-- `get_acute_complications` (lines 357-359). -/
def get_acute_complications (_symptoms : List String) : String :=
  "Monitor for signs of deterioration, systemic involvement, and emergency conditions"

/-- `get_chronic_implications` (lines 361-363). -/
def get_chronic_implications (_symptoms : List String) : String :=
  "Consider long-term health impact, quality of life factors, and chronic disease management"

/-- `get_screening_tests` (lines 365-367). -/
def get_screening_tests (_symptoms : List String) : String :=
  "Basic blood work, vital signs monitoring, and relevant imaging studies"

/-- `get_additional_tests` (lines 369-371). -/
def get_additional_tests (_symptoms : List String) : String :=
  "Specialized testing based on specific symptoms and risk factors"

/-- `get_immediate_interventions` (lines 373-375). -/
def get_immediate_interventions (_symptoms : List String) : String :=
  "Supportive care, symptom management, and monitoring of vital signs"

/-- `get_long_term_management` (lines 377-379). -/
def get_long_term_management (_symptoms : List String) : String :=
  "Lifestyle modifications, preventive measures, and regular health monitoring"

/-- `get_monitoring_parameters` (lines 381-383). -/
def get_monitoring_parameters (_symptoms : List String) : String :=
  "Vital signs, symptom progression, and response to interventions"

/-- `get_referral_criteria` (lines 385-387). -/
def get_referral_criteria (_symptoms : List String) : String :=
  "Refer to appropriate specialist if symptoms persist or worsen"

/-! ## Report assembly (diagnosis.py lines 15-156, 271-326) -/

/-- The prompt built at lines 27-43 (sent to the external service; its
content does not influence any modelled outcome). -/
def build_prompt (symptoms : List String) (p : PatientInfo) : String :=
  "\nMedical Case Analysis:\nPatient Demographics:\n" ++
  "- Age: " ++ p.age.getD "Not provided" ++ "\n" ++
  "- Gender: " ++ p.gender.getD "Not provided" ++ "\n" ++
  "- Medical History: " ++ p.medical_history.getD "Not provided" ++ "\n\n" ++
  "Presenting Symptoms:\n" ++ String.intercalate ", " symptoms ++ "\n\n" ++
  "Please provide a detailed medical analysis including:\n" ++
  "1. Differential diagnosis\n2. Risk factors\n3. Potential complications\n" ++
  "4. Recommended diagnostic tests\n5. Treatment considerations\n"

/-- The `formatted_analysis` f-string of the success path (lines 75-134),
given the already-evaluated pieces that may not be reconstructible
(model summary text, history analysis, gender text). -/
def build_success_text (summaryText : String) (symptoms : List String) (p : PatientInfo)
    (ha : HistoryAnalysis) (genderTxt : String) : String :=
  "\nMedical Analysis Report\n======================\n\n" ++
  "Patient Information:\n-------------------\n" ++
  "Age: " ++ p.age.getD "Not provided" ++ "\n" ++
  "Gender: " ++ p.gender.getD "Not provided" ++ "\n\n" ++
  "Medical History Analysis:\n-----------------------\n" ++ ha.summary ++ "\n\n" ++
  "Presenting Symptoms:\n------------------\n" ++ String.intercalate ", " symptoms ++ "\n\n" ++
  "Clinical Assessment:\n------------------\n" ++
  "1. Differential Diagnosis:\n   " ++ summaryText ++ "\n\n" ++
  "2. Risk Assessment:\n" ++
  "   - Age-related factors: " ++ get_age_risk_factors p.age ++ "\n" ++
  "   - Gender-specific considerations: " ++ genderTxt ++ "\n" ++
  "   - Medical history impact: " ++ ha.risk_factors ++ "\n\n" ++
  "3. Potential Complications:\n" ++
  "   - Acute complications: " ++ get_acute_complications symptoms ++ "\n" ++
  "   - Chronic implications: " ++ get_chronic_implications symptoms ++ "\n" ++
  "   - History-related complications: " ++ ha.complications ++ "\n\n" ++
  "4. Recommended Diagnostic Workup:\n" ++
  "   - Initial screening tests: " ++ get_screening_tests symptoms ++ "\n" ++
  "   - Additional investigations: " ++ get_additional_tests symptoms ++ "\n" ++
  "   - History-specific tests: " ++ ha.recommended_tests ++ "\n\n" ++
  "5. Treatment Considerations:\n" ++
  "   - Immediate interventions: " ++ get_immediate_interventions symptoms ++ "\n" ++
  "   - Long-term management: " ++ get_long_term_management symptoms ++ "\n" ++
  "   - History-based precautions: " ++ ha.precautions ++ "\n\n" ++
  "6. Follow-up Recommendations:\n" ++
  "   - Monitoring parameters: " ++ get_monitoring_parameters symptoms ++ "\n" ++
  "   - Referral criteria: " ++ get_referral_criteria symptoms ++ "\n" ++
  "   - History-specific monitoring: " ++ ha.monitoring ++ "\n\n" ++
  "7. Lifestyle Recommendations:\n" ++
  "   - Diet and nutrition: " ++ get_diet_recommendations symptoms p ++ "\n" ++
  "   - Exercise guidelines: " ++ get_exercise_recommendations symptoms p ++ "\n" ++
  "   - Stress management: " ++ get_stress_management symptoms p ++ "\n\n" ++
  "Important Notes:\n--------------\n" ++
  "- This is an AI-generated preliminary analysis and should not replace professional medical evaluation\n" ++
  "- Seek immediate medical attention if symptoms worsen or new symptoms develop\n" ++
  "- Regular follow-up with healthcare providers is essential\n" ++
  "- Maintain a symptom diary for better tracking\n" ++
  "- Follow all prescribed medications and treatments\n"

/-- The fallback f-string of `generate_detailed_analysis`
(lines 274-323), given the evaluated gender text. -/
def build_fallback_text (symptoms : List String) (p : PatientInfo) (genderTxt : String) : String :=
  "\nMedical Analysis Report\n======================\n\n" ++
  "Patient Information:\n-------------------\n" ++
  "Age: " ++ p.age.getD "Not provided" ++ "\n" ++
  "Gender: " ++ p.gender.getD "Not provided" ++ "\n" ++
  "Medical History: " ++ p.medical_history.getD "Not provided" ++ "\n\n" ++
  "Presenting Symptoms:\n------------------\n" ++ String.intercalate ", " symptoms ++ "\n\n" ++
  "Clinical Assessment:\n------------------\n" ++
  "1. Differential Diagnosis:\n" ++
  "   Based on the presenting symptoms, several conditions should be considered:\n" ++
  "   - Acute conditions requiring immediate attention\n" ++
  "   - Chronic conditions requiring ongoing management\n" ++
  "   - Systemic conditions affecting multiple organ systems\n\n" ++
  "2. Risk Assessment:\n" ++
  "   - Age-related factors: " ++ get_age_risk_factors p.age ++ "\n" ++
  "   - Gender-specific considerations: " ++ genderTxt ++ "\n" ++
  "   - Lifestyle and medical history impact: " ++ get_history_impact p.medical_history ++ "\n\n" ++
  "3. Potential Complications:\n" ++
  "   - Acute complications: " ++ get_acute_complications symptoms ++ "\n" ++
  "   - Chronic implications: " ++ get_chronic_implications symptoms ++ "\n\n" ++
  "4. Recommended Diagnostic Workup:\n" ++
  "   - Initial screening tests: " ++ get_screening_tests symptoms ++ "\n" ++
  "   - Additional investigations: " ++ get_additional_tests symptoms ++ "\n\n" ++
  "5. Treatment Considerations:\n" ++
  "   - Immediate interventions: " ++ get_immediate_interventions symptoms ++ "\n" ++
  "   - Long-term management: " ++ get_long_term_management symptoms ++ "\n\n" ++
  "6. Follow-up Recommendations:\n" ++
  "   - Monitoring parameters: " ++ get_monitoring_parameters symptoms ++ "\n" ++
  "   - Referral criteria: " ++ get_referral_criteria symptoms ++ "\n\n" ++
  "Important Notes:\n--------------\n" ++
  "- This is an AI-generated preliminary analysis and should not replace professional medical evaluation\n" ++
  "- Seek immediate medical attention if symptoms worsen or new symptoms develop\n" ++
  "- Regular follow-up with healthcare providers is essential\n" ++
  "- Maintain a symptom diary for better tracking\n"

/-- `generate_detailed_analysis` (lines 271-326).  Building the
f-string evaluates `get_gender_considerations`, which raises on a
missing gender key; every other sub-generator is total.  The result
dictionary has no `history_analysis` or `recommendations` key. -/
def generate_detailed_analysis (symptoms : List String) (p : PatientInfo) :
    Except String Report :=
  match get_gender_considerations p.gender with
  | Except.error e => Except.error e
  | Except.ok genderTxt =>
    Except.ok
      { analysis := build_fallback_text symptoms p genderTxt,
        symptoms_analyzed := symptoms,
        patient_info_used := p,
        history_analysis := none,
        recommendations := none }

/-- Body of the success path of `analyze_symptoms` (lines 68-146): parse
already succeeded (yielding `summaryText`), analyze the history, build
the formatted report.  `get_gender_considerations` (line 99) may raise,
which sends control to the `except` handler of the retry loop. -/
def build_success_report (summaryText : String) (symptoms : List String) (p : PatientInfo) :
    Except String Report :=
  match get_gender_considerations p.gender with
  | Except.error e => Except.error e
  | Except.ok genderTxt =>
    Except.ok
      { analysis := build_success_text summaryText symptoms p
          (analyze_medical_history (p.medical_history.getD "")) genderTxt,
        symptoms_analyzed := symptoms,
        patient_info_used := p,
        history_analysis := some (analyze_medical_history (p.medical_history.getD "")),
        recommendations := some
          { diet := get_diet_recommendations symptoms p,
            exercise := get_exercise_recommendations symptoms p,
            stress := get_stress_management symptoms p } }

/-! ## The retry loop of analyze_symptoms (lines 45-156) -/

/-- Outcome of one `requests.post` attempt against the external
service, covering every failure mode the source distinguishes. -/
inductive ApiAttempt where
  /-- HTTP 503: the transient model-is-loading signal (line 57). -/
  | unavailable : ApiAttempt
  /-- Any other non-200 status: line 66 raises. -/
  | httpError : Nat → ApiAttempt
  /-- `requests.post` itself raises (network failure). -/
  | netFail : String → ApiAttempt
  /-- HTTP 200 but `response.json()[0]['summary_text']` raises. -/
  | okMalformed : String → ApiAttempt
  /-- HTTP 200 with a well-formed payload carrying the summary text. -/
  | okSummary : String → ApiAttempt
deriving DecidableEq, Repr

/-- Did the attempt fail to deliver a summary text? -/
def ApiAttempt.isFail : ApiAttempt → Bool
  | ApiAttempt.okSummary _ => false
  | _ => true

/-- `max_retries = 3` (line 45). -/
def max_retries : Nat := 3

/-- `retry_delay = 5` seconds (line 46). -/
def retry_delay : Nat := 5

/-- The `for attempt in range(max_retries)` loop (lines 48-156).  The
fuel argument counts the remaining attempts: fuel `0` is the fall-through
`return generate_detailed_analysis(...)` of line 156.  A failing
non-final attempt sleeps `retry_delay` (logged in the second component)
and continues; a failing final attempt returns the fallback, whose own
exception (missing gender) propagates, exactly as in the source where
the handler's line 154 re-raises from `generate_detailed_analysis`. -/
def analyzeAttempts (responses : Nat → ApiAttempt) (symptoms : List String) (p : PatientInfo) :
    Nat → Nat → List Nat → Except String Report × List Nat
  | 0, _, sleeps => (generate_detailed_analysis symptoms p, sleeps)
  | fuel + 1, attempt, sleeps =>
    match responses attempt with
    | ApiAttempt.unavailable =>
      if fuel = 0 then (generate_detailed_analysis symptoms p, sleeps)
      else analyzeAttempts responses symptoms p fuel (attempt + 1) (sleeps ++ [retry_delay])
    | ApiAttempt.httpError _ =>
      if fuel = 0 then (generate_detailed_analysis symptoms p, sleeps)
      else analyzeAttempts responses symptoms p fuel (attempt + 1) (sleeps ++ [retry_delay])
    | ApiAttempt.netFail _ =>
      if fuel = 0 then (generate_detailed_analysis symptoms p, sleeps)
      else analyzeAttempts responses symptoms p fuel (attempt + 1) (sleeps ++ [retry_delay])
    | ApiAttempt.okMalformed _ =>
      if fuel = 0 then (generate_detailed_analysis symptoms p, sleeps)
      else analyzeAttempts responses symptoms p fuel (attempt + 1) (sleeps ++ [retry_delay])
    | ApiAttempt.okSummary text =>
      match build_success_report text symptoms p with
      | Except.ok report => (Except.ok report, sleeps)
      | Except.error _ =>
        if fuel = 0 then (generate_detailed_analysis symptoms p, sleeps)
        else analyzeAttempts responses symptoms p fuel (attempt + 1) (sleeps ++ [retry_delay])

/-- `analyze_symptoms` (lines 15-156), driven by the oracle `responses`
giving each attempt's outcome.  Returns the result (or the propagated
exception) together with the list of observed retry delays. -/
def analyze_symptoms (responses : Nat → ApiAttempt) (symptoms : List String)
    (p : PatientInfo) : Except String Report × List Nat :=
  analyzeAttempts responses symptoms p max_retries 0 []

/-! ## The Flask route (app.py lines 13-31) -/

/-- The JSON response of the `/api/analyze` route. -/
structure AnalyzeResponse where
  success : Bool
  diagnosis : Option Report
  error : Option String
  httpStatus : Nat
deriving DecidableEq, Repr

/-- The `analyze` route (app.py lines 13-31).  `body` is the outcome of
`request.json` plus the two `.get` extractions: `Except.error` models
any exception raised while reading the request (bad JSON, non-dict
payload), caught by the same `try`. -/
def analyzeRoute (responses : Nat → ApiAttempt)
    (body : Except String (List String × PatientInfo)) : AnalyzeResponse :=
  match body with
  | Except.error e => { success := false, diagnosis := none, error := some e, httpStatus := 500 }
  | Except.ok (symptoms, pinfo) =>
    match (analyze_symptoms responses symptoms pinfo).1 with
    | Except.ok r => { success := true, diagnosis := some r, error := none, httpStatus := 200 }
    | Except.error e => { success := false, diagnosis := none, error := some e, httpStatus := 500 }

/-- The error description surfaced at the route boundary, if the inner
computation raised. -/
def routeInnerError (responses : Nat → ApiAttempt)
    (body : Except String (List String × PatientInfo)) : Option String :=
  match body with
  | Except.error e => some e
  | Except.ok (symptoms, pinfo) =>
    match (analyze_symptoms responses symptoms pinfo).1 with
    | Except.error e => some e
    | Except.ok _ => none

/-! ## Helper lemmas on the retry loop -/

/-- A failing attempt either sleeps and continues, or (when it was the
last one) returns the fallback. -/
lemma go_fail_succ (responses : Nat → ApiAttempt) (symptoms : List String) (p : PatientInfo)
    (fuel attempt : Nat) (sleeps : List Nat) (hf : (responses attempt).isFail = true) :
    analyzeAttempts responses symptoms p (fuel + 1) attempt sleeps =
      if fuel = 0 then (generate_detailed_analysis symptoms p, sleeps)
      else analyzeAttempts responses symptoms p fuel (attempt + 1) (sleeps ++ [retry_delay]) := by
  simp only [analyzeAttempts]
  cases h : responses attempt
  case okSummary t => rw [h] at hf; exact absurd hf (by simp [ApiAttempt.isFail])
  all_goals rfl

/-- A successful attempt whose report assembly succeeds returns the
model-augmented report without sleeping again. -/
lemma go_ok_succ (responses : Nat → ApiAttempt) (symptoms : List String) (p : PatientInfo)
    (fuel attempt : Nat) (sleeps : List Nat) (t : String) (r : Report)
    (ht : responses attempt = ApiAttempt.okSummary t)
    (hb : build_success_report t symptoms p = Except.ok r) :
    analyzeAttempts responses symptoms p (fuel + 1) attempt sleeps =
      (Except.ok r, sleeps) := by
  simp only [analyzeAttempts]
  rw [ht]
  simp only [hb]

/-- When the gender key is present, `get_gender_considerations` cannot
raise. -/
lemma gender_some_ok (g : String) :
    ∃ t, get_gender_considerations (some g) = Except.ok t := by
  unfold get_gender_considerations
  by_cases hm : pyLower g = "male"
  · simp [hm]
  · by_cases hf : pyLower g = "female" <;> simp [hm, hf]

/-- The sleep log of a run is a block of `retry_delay` entries, strictly
fewer than the fuel (when there is any fuel). -/
lemma go_sleeps (responses : Nat → ApiAttempt) (symptoms : List String) (p : PatientInfo) :
    ∀ (fuel attempt : Nat) (sleeps : List Nat),
      ∃ k : Nat, k + 1 ≤ max fuel 1 ∧
        (analyzeAttempts responses symptoms p fuel attempt sleeps).2 =
          sleeps ++ List.replicate k retry_delay := by
  intro fuel
  induction fuel with
  | zero =>
    intro attempt sleeps
    exact ⟨0, by simp, by simp [analyzeAttempts]⟩
  | succ f ih =>
    intro attempt sleeps
    have hmax : max (f + 1) 1 = f + 1 := Nat.max_eq_left (Nat.succ_le_succ (Nat.zero_le f))
    have hrec : f ≠ 0 → ∀ sl : List Nat,
        ∃ k : Nat, k + 1 ≤ f ∧
          (analyzeAttempts responses symptoms p f (attempt + 1) sl).2 =
            sl ++ List.replicate k retry_delay := by
      intro hf sl
      obtain ⟨k, hk, he⟩ := ih (attempt + 1) sl
      rw [Nat.max_eq_left (Nat.one_le_iff_ne_zero.mpr hf)] at hk
      exact ⟨k, hk, he⟩
    simp only [analyzeAttempts]
    cases h : responses attempt with
    | okSummary t =>
      cases hb : build_success_report t symptoms p with
      | ok r => exact ⟨0, by rw [hmax]; omega, by simp [hb]⟩
      | error e =>
        by_cases hf : f = 0
        · exact ⟨0, by rw [hmax]; omega, by simp [hb, hf]⟩
        · obtain ⟨k, hk, he⟩ := hrec hf (sleeps ++ [retry_delay])
          refine ⟨k + 1, by rw [hmax]; omega, ?_⟩
          simp only [hb, hf, if_false]
          rw [he]
          simp [List.replicate_succ]
    | unavailable =>
      by_cases hf : f = 0
      · exact ⟨0, by rw [hmax]; omega, by simp [hf]⟩
      · obtain ⟨k, hk, he⟩ := hrec hf (sleeps ++ [retry_delay])
        refine ⟨k + 1, by rw [hmax]; omega, ?_⟩
        simp only [hf, if_false]
        rw [he]
        simp [List.replicate_succ]
    | httpError c =>
      by_cases hf : f = 0
      · exact ⟨0, by rw [hmax]; omega, by simp [hf]⟩
      · obtain ⟨k, hk, he⟩ := hrec hf (sleeps ++ [retry_delay])
        refine ⟨k + 1, by rw [hmax]; omega, ?_⟩
        simp only [hf, if_false]
        rw [he]
        simp [List.replicate_succ]
    | netFail m =>
      by_cases hf : f = 0
      · exact ⟨0, by rw [hmax]; omega, by simp [hf]⟩
      · obtain ⟨k, hk, he⟩ := hrec hf (sleeps ++ [retry_delay])
        refine ⟨k + 1, by rw [hmax]; omega, ?_⟩
        simp only [hf, if_false]
        rw [he]
        simp [List.replicate_succ]
    | okMalformed m =>
      by_cases hf : f = 0
      · exact ⟨0, by rw [hmax]; omega, by simp [hf]⟩
      · obtain ⟨k, hk, he⟩ := hrec hf (sleeps ++ [retry_delay])
        refine ⟨k + 1, by rw [hmax]; omega, ?_⟩
        simp only [hf, if_false]
        rw [he]
        simp [List.replicate_succ]

/-- The run consults the oracle only at indices
`attempt, ..., attempt + fuel - 1`. -/
lemma go_agree (responses responses2 : Nat → ApiAttempt) (symptoms : List String)
    (p : PatientInfo) :
    ∀ (fuel attempt : Nat) (sleeps : List Nat),
      (∀ i, attempt ≤ i → i < attempt + fuel → responses i = responses2 i) →
      analyzeAttempts responses symptoms p fuel attempt sleeps =
        analyzeAttempts responses2 symptoms p fuel attempt sleeps := by
  intro fuel
  induction fuel with
  | zero => intro attempt sleeps _; rfl
  | succ f ih =>
    intro attempt sleeps hag
    have hra : responses attempt = responses2 attempt :=
      hag attempt (Nat.le_refl attempt) (by omega)
    have hnext : ∀ i, attempt + 1 ≤ i → i < attempt + 1 + f → responses i = responses2 i :=
      fun i h1 h2 => hag i (by omega) (by omega)
    simp only [analyzeAttempts]
    rw [← hra]
    cases h : responses attempt with
    | okSummary t =>
      cases hb : build_success_report t symptoms p with
      | ok r => simp [hb]
      | error e =>
        by_cases hf : f = 0
        · simp [hb, hf]
        · simp only [hb, hf, if_false]
          exact ih (attempt + 1) (sleeps ++ [retry_delay]) hnext
    | unavailable =>
      by_cases hf : f = 0
      · simp [hf]
      · simp only [hf, if_false]
        exact ih (attempt + 1) (sleeps ++ [retry_delay]) hnext
    | httpError c =>
      by_cases hf : f = 0
      · simp [hf]
      · simp only [hf, if_false]
        exact ih (attempt + 1) (sleeps ++ [retry_delay]) hnext
    | netFail m =>
      by_cases hf : f = 0
      · simp [hf]
      · simp only [hf, if_false]
        exact ih (attempt + 1) (sleeps ++ [retry_delay]) hnext
    | okMalformed m =>
      by_cases hf : f = 0
      · simp [hf]
      · simp only [hf, if_false]
        exact ih (attempt + 1) (sleeps ++ [retry_delay]) hnext

/-! ## Claim theorems -/

/-- Claim C1 (code bug).  The claimed invariant — `analyze_symptoms`
never raises, because the fallback's sub-generators are all total — is
violated by the code: with the `gender` key absent, every path reaches
`get_gender_considerations(None)`, whose unguarded `gender.lower()`
raises `AttributeError`, and the exception escapes `analyze_symptoms`.
Evaluated here at symptoms `["headache"]`, `patient_info = {}`, with all
three attempts failing with a network error: the result is the
propagated exception (and the fallback itself is the failing piece). -/
theorem fallback_gender_none_raises :
    analyze_symptoms (fun _ => ApiAttempt.netFail "Connection error") ["headache"]
        { age := none, gender := none, medical_history := none }
      = (Except.error "NoneType object has no attribute lower", [retry_delay, retry_delay]) ∧
    generate_detailed_analysis ["headache"]
        { age := none, gender := none, medical_history := none }
      = Except.error "NoneType object has no attribute lower" := ⟨rfl, rfl⟩

/-- Claim C2, counterexample.  With the external service returning the
transient-unavailable status on all 3 attempts and `patient_info`
lacking the `gender` key, `analyze_symptoms` does NOT return the
fallback report: it propagates the `AttributeError` raised inside
`generate_detailed_analysis`, refuting the claim as stated. -/
theorem all_attempts_fail_gender_missing_errors :
    (analyze_symptoms (fun _ => ApiAttempt.unavailable) []
        { age := some "30", gender := none, medical_history := some "diabetes" }).1
      = Except.error "NoneType object has no attribute lower" := rfl

/-- Claim C2 (amended): whenever the external service call fails on all
3 attempts, in any failure mode, and `patient_info` supplies a gender
string (so the fallback's own gender lookup cannot raise),
`analyze_symptoms` returns the fallback report rather than propagating
an error; that report omits the `history_analysis` and
`recommendations` keys and contains the input symptoms and patient_info
verbatim under `symptoms_analyzed` and `patient_info_used`. -/
theorem all_attempts_fail_returns_fallback
    (responses : Nat → ApiAttempt) (symptoms : List String) (p : PatientInfo) (g : String)
    (hfail : ∀ i, (responses i).isFail = true) (hg : p.gender = some g) :
    ∃ r : Report,
      analyze_symptoms responses symptoms p = (Except.ok r, [retry_delay, retry_delay]) ∧
      generate_detailed_analysis symptoms p = Except.ok r ∧
      r.history_analysis = none ∧ r.recommendations = none ∧
      r.symptoms_analyzed = symptoms ∧ r.patient_info_used = p := by
  obtain ⟨gt, hgt⟩ : ∃ t, get_gender_considerations p.gender = Except.ok t := by
    rw [hg]; exact gender_some_ok g
  have hfb : generate_detailed_analysis symptoms p =
      Except.ok
        { analysis := build_fallback_text symptoms p gt,
          symptoms_analyzed := symptoms,
          patient_info_used := p,
          history_analysis := none,
          recommendations := none } := by
    unfold generate_detailed_analysis
    rw [hgt]
  have hkey : analyze_symptoms responses symptoms p =
      (generate_detailed_analysis symptoms p, [retry_delay, retry_delay]) := by
    have e0 : analyze_symptoms responses symptoms p
        = analyzeAttempts responses symptoms p (2 + 1) 0 [] := rfl
    rw [e0, go_fail_succ responses symptoms p 2 0 [] (hfail 0),
      if_neg (by omega : (2 : Nat) ≠ 0)]
    have e1 : (2 : Nat) = 1 + 1 := rfl
    rw [e1, go_fail_succ responses symptoms p 1 1 ([] ++ [retry_delay]) (hfail 1),
      if_neg (by omega : (1 : Nat) ≠ 0)]
    have e2 : (1 : Nat) = 0 + 1 := rfl
    rw [e2, go_fail_succ responses symptoms p 0 2 ([] ++ [retry_delay] ++ [retry_delay]) (hfail 2),
      if_pos rfl]
    simp
  refine ⟨_, ?_, hfb, rfl, rfl, rfl, rfl⟩
  rw [hkey, hfb]

/-- Claim C2 witness: all 3 attempts fail with HTTP 500 and the patient
supplies a gender; the fallback report is returned with the echoed
inputs and without the augmented keys. -/
theorem all_attempts_fail_returns_fallback_witness :
    ∃ r : Report,
      analyze_symptoms (fun _ => ApiAttempt.httpError 500) ["fever"]
          { age := some "30", gender := some "female", medical_history := some "asthma" }
        = (Except.ok r, [retry_delay, retry_delay]) ∧
      generate_detailed_analysis ["fever"]
          { age := some "30", gender := some "female", medical_history := some "asthma" }
        = Except.ok r ∧
      r.history_analysis = none ∧ r.recommendations = none ∧
      r.symptoms_analyzed = ["fever"] ∧
      r.patient_info_used =
        { age := some "30", gender := some "female", medical_history := some "asthma" } :=
  all_attempts_fail_returns_fallback (fun _ => ApiAttempt.httpError 500) ["fever"]
    { age := some "30", gender := some "female", medical_history := some "asthma" }
    "female" (fun _ => rfl) rfl

/-- Claim C3, counterexample.  For the history text
"patient has a cold" the classifier does take the `NoMatches` branch
(empty detected set) while `""` takes `NoHistoryProvided` — but the two
branches' analysis dictionaries do NOT differ in every field: the
`monitoring` field is the identical string
"Standard monitoring parameters recommended." on both, refuting the
claimed all-fields distinctness. -/
theorem cold_history_monitoring_coincides :
    classifyHistory "patient has a cold" = HistoryClass.noMatches ∧
    classifyHistory "" = HistoryClass.noHistoryProvided ∧
    (analyze_medical_history "patient has a cold").monitoring =
      (analyze_medical_history "").monitoring := by
  refine ⟨by decide, by decide, by decide⟩

/-- Claim C3 (amended): for "patient has a cold" the classifier yields
the empty set via the `NoMatches` branch, and the resulting analysis
differs from the `NoHistoryProvided` branch's content in five of the six
fields (summary, risk_factors, complications, recommended_tests,
precautions) while the `monitoring` field coincides; the two branches
remain distinguishable (e.g. by the summary field). -/
theorem cold_history_nomatches_branch :
    classifyHistory "patient has a cold" = HistoryClass.noMatches ∧
    detected_conditions "patient has a cold" = [] ∧
    (((analyze_medical_history "patient has a cold").summary ==
        (analyze_medical_history "").summary) = false) ∧
    (((analyze_medical_history "patient has a cold").risk_factors ==
        (analyze_medical_history "").risk_factors) = false) ∧
    (((analyze_medical_history "patient has a cold").complications ==
        (analyze_medical_history "").complications) = false) ∧
    (((analyze_medical_history "patient has a cold").recommended_tests ==
        (analyze_medical_history "").recommended_tests) = false) ∧
    (((analyze_medical_history "patient has a cold").precautions ==
        (analyze_medical_history "").precautions) = false) ∧
    (analyze_medical_history "patient has a cold").monitoring =
      (analyze_medical_history "").monitoring := by
  refine ⟨by decide, by decide, by decide, by decide, by decide, by decide, by decide, by decide⟩

/-- The keyword lists of the six condition categories other than
diabetes and hypertension, used to state claim C4's side condition. -/
def other_category_keywords : List String :=
  ["heart disease", "cardiac", "heart attack", "angina",
   "asthma", "copd", "bronchitis", "pneumonia",
   "arthritis", "joint pain", "rheumatoid", "osteoarthritis",
   "depression", "anxiety", "bipolar", "schizophrenia",
   "allergies", "allergic", "anaphylaxis",
   "cancer", "tumor", "malignancy", "oncology"]

/-- Claim C4 (confirmed): any history text containing "diabetes" and
"high blood pressure" (case-insensitively) and no keyword of any other
category is classified as exactly `["diabetes", "hypertension"]`, in the
declaration order of the table, and the textual renderings list the two
categories in that fixed order. -/
theorem diabetes_hbp_classification (history : String)
    (h1 : sContains (pyLower history) "diabetes" = true)
    (h2 : sContains (pyLower history) "high blood pressure" = true)
    (h3 : ∀ kw ∈ other_category_keywords, sContains (pyLower history) kw = false) :
    detected_conditions history = ["diabetes", "hypertension"] ∧
    generate_history_summary ["diabetes", "hypertension"] =
      "Detected medical conditions:\n- Diabetes\n- Hypertension\n" ∧
    generate_risk_factors ["diabetes", "hypertension"] =
      "Additional risk factors based on medical history:\n- Diabetes-related complications\n- Hypertension-related complications\n" ∧
    generate_complications ["diabetes", "hypertension"] =
      "Potential complications to monitor:\n- Diabetes-related complications\n- Hypertension-related complications\n" ∧
    generate_recommended_tests ["diabetes", "hypertension"] =
      "Additional tests recommended based on medical history:\n- Diabetes-specific monitoring\n- Hypertension-specific monitoring\n" ∧
    generate_precautions ["diabetes", "hypertension"] =
      "Additional precautions based on medical history:\n- Diabetes-specific precautions\n- Hypertension-specific precautions\n" ∧
    generate_monitoring_plan ["diabetes", "hypertension"] =
      "Additional monitoring parameters based on medical history:\n- Diabetes-specific monitoring\n- Hypertension-specific monitoring\n" := by
  simp only [other_category_keywords, List.mem_cons, List.not_mem_nil, forall_eq_or_imp,
    forall_eq, or_false] at h3
  obtain ⟨k1, k2, k3, k4, k5, k6, k7, k8, k9, k10, k11, k12, k13, k14, k15, k16, k17, k18,
    k19, k20, k21, k22, k23⟩ := h3
  refine ⟨?_, rfl, rfl, rfl, rfl, rfl, rfl⟩
  simp [detected_conditions, conditionsTable, List.filter, h1, h2,
    k1, k2, k3, k4, k5, k6, k7, k8, k9, k10, k11, k12, k13, k14, k15, k16, k17, k18,
    k19, k20, k21, k22, k23]

/-- Claim C4 witness at the concrete history
"Diabetes and high blood pressure". -/
theorem diabetes_hbp_classification_witness :
    detected_conditions "Diabetes and high blood pressure" = ["diabetes", "hypertension"] ∧
    generate_history_summary ["diabetes", "hypertension"] =
      "Detected medical conditions:\n- Diabetes\n- Hypertension\n" ∧
    generate_risk_factors ["diabetes", "hypertension"] =
      "Additional risk factors based on medical history:\n- Diabetes-related complications\n- Hypertension-related complications\n" ∧
    generate_complications ["diabetes", "hypertension"] =
      "Potential complications to monitor:\n- Diabetes-related complications\n- Hypertension-related complications\n" ∧
    generate_recommended_tests ["diabetes", "hypertension"] =
      "Additional tests recommended based on medical history:\n- Diabetes-specific monitoring\n- Hypertension-specific monitoring\n" ∧
    generate_precautions ["diabetes", "hypertension"] =
      "Additional precautions based on medical history:\n- Diabetes-specific precautions\n- Hypertension-specific precautions\n" ∧
    generate_monitoring_plan ["diabetes", "hypertension"] =
      "Additional monitoring parameters based on medical history:\n- Diabetes-specific monitoring\n- Hypertension-specific monitoring\n" :=
  diabetes_hbp_classification "Diabetes and high blood pressure"
    (by decide) (by decide) (by decide)

/-- Claim C5 (confirmed): for history equal to the empty string or any
letter-case variant of "Not provided", `analyze_medical_history` returns
the fixed no-history canned six-string dictionary verbatim, through the
`NoHistoryProvided` branch (no keyword classification). -/
theorem no_history_sentinel_canned (history : String)
    (h : history = "" ∨ pyLower history = "not provided") :
    analyze_medical_history history =
      { summary := "No medical history provided. Please provide medical history for better analysis.",
        risk_factors := "Unable to assess risk factors without medical history.",
        complications := "Unable to assess potential complications without medical history.",
        recommended_tests := "Standard screening tests recommended based on age and gender.",
        precautions := "General precautions recommended. Specific precautions require medical history.",
        monitoring := "Standard monitoring parameters recommended." } ∧
    classifyHistory history = HistoryClass.noHistoryProvided := by
  unfold analyze_medical_history classifyHistory
  rw [if_pos h, if_pos h]
  exact ⟨rfl, rfl⟩

/-- Claim C5 witness at the sentinel "NOT PROVIDED" (upper case). -/
theorem no_history_sentinel_canned_witness :
    analyze_medical_history "NOT PROVIDED" =
      { summary := "No medical history provided. Please provide medical history for better analysis.",
        risk_factors := "Unable to assess risk factors without medical history.",
        complications := "Unable to assess potential complications without medical history.",
        recommended_tests := "Standard screening tests recommended based on age and gender.",
        precautions := "General precautions recommended. Specific precautions require medical history.",
        monitoring := "Standard monitoring parameters recommended." } ∧
    classifyHistory "NOT PROVIDED" = HistoryClass.noHistoryProvided :=
  no_history_sentinel_canned "NOT PROVIDED" (Or.inr (by decide))

/-- Claim C6 (confirmed): age bucketing is a total function of the
optional age string — a parse below 18 gives the pediatric text, 18-64
the adult text, 65 and above the geriatric text, and an unparseable or
missing age the cannot-be-determined text; concretely "10", "40", "70",
"abc" and a missing age land in the stated buckets. -/
theorem age_bucketing_total (age : Option String) (n : Int) :
    (pyIntOfAge age = some n →
      ((n < 18 → get_age_risk_factors age =
          "Pediatric considerations, developmental factors, growth monitoring") ∧
       (18 ≤ n → n < 65 → get_age_risk_factors age =
          "Adult risk factors, lifestyle-related conditions, occupational health") ∧
       (65 ≤ n → get_age_risk_factors age =
          "Geriatric considerations, age-related conditions, polypharmacy risks"))) ∧
    (pyIntOfAge age = none → get_age_risk_factors age =
      "Age-specific risk factors cannot be determined") ∧
    get_age_risk_factors (some "10") =
      "Pediatric considerations, developmental factors, growth monitoring" ∧
    get_age_risk_factors (some "40") =
      "Adult risk factors, lifestyle-related conditions, occupational health" ∧
    get_age_risk_factors (some "70") =
      "Geriatric considerations, age-related conditions, polypharmacy risks" ∧
    get_age_risk_factors (some "abc") =
      "Age-specific risk factors cannot be determined" ∧
    get_age_risk_factors none =
      "Age-specific risk factors cannot be determined" := by
  refine ⟨fun h => ⟨fun hlt => ?_, fun hge hlt => ?_, fun hge => ?_⟩, fun h => ?_,
    rfl, rfl, rfl, rfl, rfl⟩
  · unfold get_age_risk_factors
    rw [h]
    simp [hlt]
  · unfold get_age_risk_factors
    rw [h]
    simp [show ¬ n < 18 by omega, hlt]
  · unfold get_age_risk_factors
    rw [h]
    simp [show ¬ n < 18 by omega, show ¬ n < 65 by omega]
  · unfold get_age_risk_factors
    rw [h]

/-- Claim C6 witness: the general bucketing theorem applied at the
concrete parsed age "40". -/
theorem age_bucketing_total_witness :
    get_age_risk_factors (some "40") =
      "Adult risk factors, lifestyle-related conditions, occupational health" :=
  (((age_bucketing_total (some "40") 40).1 (by decide)).2.1 (by decide) (by decide))

/-- Claim C7 (confirmed): the `/api/analyze` route is total — for every
request body and every behaviour of the external service it returns a
response with a boolean success flag: either success with a diagnosis
and no error, or failure carrying exactly the description of the
internal error that was raised. -/
theorem analyze_boundary_total (responses : Nat → ApiAttempt)
    (body : Except String (List String × PatientInfo)) :
    ((analyzeRoute responses body).success = true ∧
     (analyzeRoute responses body).error = none ∧
     (analyzeRoute responses body).diagnosis.isSome = true ∧
     (analyzeRoute responses body).httpStatus = 200 ∧
     routeInnerError responses body = none) ∨
    ((analyzeRoute responses body).success = false ∧
     (analyzeRoute responses body).diagnosis = none ∧
     (analyzeRoute responses body).httpStatus = 500 ∧
     ∃ e, (analyzeRoute responses body).error = some e ∧
       routeInnerError responses body = some e) := by
  cases body with
  | error e =>
    right
    exact ⟨rfl, rfl, rfl, e, rfl, rfl⟩
  | ok sp =>
    obtain ⟨symptoms, pinfo⟩ := sp
    cases h : (analyze_symptoms responses symptoms pinfo).1 with
    | ok r =>
      left
      simp [analyzeRoute, routeInnerError, h]
    | error e =>
      right
      simp [analyzeRoute, routeInnerError, h]

/-- Claim C8, counterexample.  Service: transient-unavailable on the
1st attempt, success on the 2nd — but `patient_info` lacks the gender
key, so assembling the model-augmented report raises, the loop retries,
and the call ends in the propagated fallback exception after TWO retry
delays, refuting both the model-augmented outcome and the
exactly-one-delay part of the claim as stated. -/
theorem second_attempt_success_gender_missing_fallback :
    analyze_symptoms
        (fun n => if n = 0 then ApiAttempt.unavailable else ApiAttempt.okSummary "Viral syndrome")
        ["cough"] { age := some "25", gender := none, medical_history := none }
      = (Except.error "NoneType object has no attribute lower",
         [retry_delay, retry_delay]) := rfl

/-- Claim C8 (amended): if the service returns the
transient-unavailability signal on the 1st attempt and succeeds on the
2nd, and `patient_info` supplies a gender string (so report assembly
cannot raise), then `analyze_symptoms` returns the model-augmented
report — carrying the `history_analysis` and `recommendations`
structured fields alongside the formatted text — and exactly one retry
delay occurs during the call. -/
theorem second_attempt_success_augmented
    (responses : Nat → ApiAttempt) (symptoms : List String) (p : PatientInfo) (t g : String)
    (h0 : responses 0 = ApiAttempt.unavailable)
    (h1 : responses 1 = ApiAttempt.okSummary t)
    (hg : p.gender = some g) :
    ∃ r : Report,
      analyze_symptoms responses symptoms p = (Except.ok r, [retry_delay]) ∧
      build_success_report t symptoms p = Except.ok r ∧
      r.history_analysis = some (analyze_medical_history (p.medical_history.getD "")) ∧
      r.recommendations = some
        { diet := get_diet_recommendations symptoms p,
          exercise := get_exercise_recommendations symptoms p,
          stress := get_stress_management symptoms p } ∧
      r.symptoms_analyzed = symptoms ∧ r.patient_info_used = p := by
  obtain ⟨gt, hgt⟩ : ∃ v, get_gender_considerations p.gender = Except.ok v := by
    rw [hg]; exact gender_some_ok g
  have hb : build_success_report t symptoms p =
      Except.ok
        { analysis := build_success_text t symptoms p
            (analyze_medical_history (p.medical_history.getD "")) gt,
          symptoms_analyzed := symptoms,
          patient_info_used := p,
          history_analysis := some (analyze_medical_history (p.medical_history.getD "")),
          recommendations := some
            { diet := get_diet_recommendations symptoms p,
              exercise := get_exercise_recommendations symptoms p,
              stress := get_stress_management symptoms p } } := by
    unfold build_success_report
    rw [hgt]
  have hf0 : (responses 0).isFail = true := by rw [h0]; rfl
  have hkey : analyze_symptoms responses symptoms p =
      (Except.ok
        { analysis := build_success_text t symptoms p
            (analyze_medical_history (p.medical_history.getD "")) gt,
          symptoms_analyzed := symptoms,
          patient_info_used := p,
          history_analysis := some (analyze_medical_history (p.medical_history.getD "")),
          recommendations := some
            { diet := get_diet_recommendations symptoms p,
              exercise := get_exercise_recommendations symptoms p,
              stress := get_stress_management symptoms p } }, [retry_delay]) := by
    have e0 : analyze_symptoms responses symptoms p
        = analyzeAttempts responses symptoms p (2 + 1) 0 [] := rfl
    rw [e0, go_fail_succ responses symptoms p 2 0 [] hf0,
      if_neg (by omega : (2 : Nat) ≠ 0)]
    have e1 : (2 : Nat) = 1 + 1 := rfl
    rw [e1, go_ok_succ responses symptoms p 1 1 ([] ++ [retry_delay]) t _ h1 hb]
    simp
  exact ⟨_, hkey, hb, rfl, rfl, rfl, rfl⟩

/-- Claim C8 witness: transient-unavailable then success, with a male
patient; the augmented report comes back after exactly one delay. -/
theorem second_attempt_success_augmented_witness :
    ∃ r : Report,
      analyze_symptoms
          (fun n => if n = 0 then ApiAttempt.unavailable
                    else ApiAttempt.okSummary "Likely viral infection")
          ["fever", "cough"] { age := some "40", gender := some "male", medical_history := none }
        = (Except.ok r, [retry_delay]) ∧
      build_success_report "Likely viral infection" ["fever", "cough"]
          { age := some "40", gender := some "male", medical_history := none }
        = Except.ok r ∧
      r.history_analysis = some (analyze_medical_history "") ∧
      r.recommendations = some
        { diet := get_diet_recommendations ["fever", "cough"]
            { age := some "40", gender := some "male", medical_history := none },
          exercise := get_exercise_recommendations ["fever", "cough"]
            { age := some "40", gender := some "male", medical_history := none },
          stress := get_stress_management ["fever", "cough"]
            { age := some "40", gender := some "male", medical_history := none } } ∧
      r.symptoms_analyzed = ["fever", "cough"] ∧
      r.patient_info_used =
        { age := some "40", gender := some "male", medical_history := none } :=
  second_attempt_success_augmented
    (fun n => if n = 0 then ApiAttempt.unavailable
              else ApiAttempt.okSummary "Likely viral infection")
    ["fever", "cough"] { age := some "40", gender := some "male", medical_history := none }
    "Likely viral infection" "male" rfl rfl rfl

/-- Claim C9 (confirmed): every `analyze_symptoms` call consults the
external service on at most `max_retries = 3` attempts (the outcome is
unchanged by the oracle's behaviour beyond index 2), every inter-attempt
delay equals `retry_delay = 5`, at most two delays separate the three
attempts (so the number of attempts, delays + 1, is within the budget),
and the total blocking delay is at most 15 time-units (indeed at most
10). -/
theorem retry_budget_bounded (responses responses2 : Nat → ApiAttempt)
    (symptoms : List String) (p : PatientInfo)
    (hagree : ∀ i, i < max_retries → responses i = responses2 i) :
    ((analyze_symptoms responses symptoms p).2 = [] ∨
     (analyze_symptoms responses symptoms p).2 = [retry_delay] ∨
     (analyze_symptoms responses symptoms p).2 = [retry_delay, retry_delay]) ∧
    (analyze_symptoms responses symptoms p).2.length + 1 ≤ max_retries ∧
    (analyze_symptoms responses symptoms p).2.sum ≤ 15 ∧
    analyze_symptoms responses symptoms p = analyze_symptoms responses2 symptoms p := by
  obtain ⟨k, hk, he⟩ := go_sleeps responses symptoms p max_retries 0 []
  have hk3 : k + 1 ≤ 3 := by
    simpa [max_retries] using hk
  have he2 : (analyze_symptoms responses symptoms p).2 = List.replicate k retry_delay := by
    simpa using he
  have hagree2 : analyze_symptoms responses symptoms p = analyze_symptoms responses2 symptoms p :=
    go_agree responses responses2 symptoms p max_retries 0 []
      (fun i h1 h2 => hagree i (by omega))
  have hk2 : k ≤ 2 := by omega
  interval_cases k <;>
    simp_all [retry_delay, max_retries, List.replicate_succ]

/-- Claim C9 witness: the budget bound at an always-unavailable service
and two oracles that agree on the first three attempts. -/
theorem retry_budget_bounded_witness :
    ((analyze_symptoms (fun _ => ApiAttempt.unavailable) []
        { age := none, gender := some "male", medical_history := none }).2 = [] ∨
     (analyze_symptoms (fun _ => ApiAttempt.unavailable) []
        { age := none, gender := some "male", medical_history := none }).2 = [retry_delay] ∨
     (analyze_symptoms (fun _ => ApiAttempt.unavailable) []
        { age := none, gender := some "male", medical_history := none }).2 =
       [retry_delay, retry_delay]) ∧
    (analyze_symptoms (fun _ => ApiAttempt.unavailable) []
        { age := none, gender := some "male", medical_history := none }).2.length + 1 ≤
      max_retries ∧
    (analyze_symptoms (fun _ => ApiAttempt.unavailable) []
        { age := none, gender := some "male", medical_history := none }).2.sum ≤ 15 ∧
    analyze_symptoms (fun _ => ApiAttempt.unavailable) []
        { age := none, gender := some "male", medical_history := none }
      = analyze_symptoms (fun n => if n < 3 then ApiAttempt.unavailable
          else ApiAttempt.okSummary "never reached") []
          { age := none, gender := some "male", medical_history := none } :=
  retry_budget_bounded (fun _ => ApiAttempt.unavailable)
    (fun n => if n < 3 then ApiAttempt.unavailable else ApiAttempt.okSummary "never reached")
    [] { age := none, gender := some "male", medical_history := none }
    (fun i hi => by simp [max_retries] at hi; simp [hi])

/-- Claim C10 (confirmed): for every history text, the detected
condition list is a duplicate-free sublist of the 8 categories in their
declaration order, and a category appears exactly when at least one of
its keywords occurs (case-insensitively) in the history text. -/
theorem detected_conditions_invariant (history : String) :
    (detected_conditions history).Nodup ∧
    List.Sublist (detected_conditions history)
      ["diabetes", "hypertension", "heart_disease", "respiratory",
       "arthritis", "mental_health", "allergies", "cancer"] ∧
    ∀ c : String,
      c ∈ detected_conditions history ↔
        ∃ kws : List String, (c, kws) ∈ conditionsTable ∧
          kws.any (fun kw => sContains (pyLower history) kw) = true := by
  have hsub : List.Sublist (detected_conditions history)
      (conditionsTable.map (fun ck => ck.1)) := by
    unfold detected_conditions
    exact List.Sublist.map _ (List.filter_sublist conditionsTable)
  have htable : conditionsTable.map (fun ck : String × List String => ck.1) =
      ["diabetes", "hypertension", "heart_disease", "respiratory",
       "arthritis", "mental_health", "allergies", "cancer"] := rfl
  rw [htable] at hsub
  refine ⟨List.Nodup.sublist hsub (by decide), hsub, fun c => ?_⟩
  constructor
  · intro hc
    simp only [detected_conditions, List.mem_map, List.mem_filter] at hc
    obtain ⟨⟨name, kws⟩, ⟨hmem, hp⟩, hc1⟩ := hc
    exact ⟨kws, by rwa [← hc1], hp⟩
  · rintro ⟨kws, hmem, hp⟩
    simp only [detected_conditions, List.mem_map, List.mem_filter]
    exact ⟨(c, kws), ⟨hmem, hp⟩, rfl⟩
